import Mathlib

/-!
Shallow embedding of the pickup-submission core of the pickUpLivery
repository (src/app/api/v1/pickups.py and the data models it reads),
together with theorems checking the specification's claims about it.

Conventions of the embedding:
* A UTC instant is an `Int`, counted in microseconds since the Unix epoch
  (Python `datetime` objects carry microsecond precision and compare by
  that total order).
* The system civil timezone (`ZoneInfo("Europe/Berlin")` in the source) is
  modelled by an abstract pair of conversion functions (`Tz`): the claims
  proved here hold for every such conversion, and witnesses instantiate a
  concrete one.
* Python `float` parsing (`float(s)`) is modelled by an abstract function
  `String → Option Rat` (`none` models the `ValueError` branch); the
  Pillow re-encoding step `compress_image` is likewise abstract, since
  both are external collaborators of the core.
* The database session is a quadruple of row lists; a request that ends in
  an error re-renders the form without committing, so on every failure the
  returned database equals the input database.
-/

namespace PickupLivery

/-- A UTC instant: microseconds since the Unix epoch. -/
abbrev Instant := Int

/-- Microseconds in one day. -/
def usecPerDay : Int := 86400000000

/-- Microseconds in one hour. -/
def usecPerHour : Int := 3600000000

/-- Microseconds in one minute. -/
def usecPerMinute : Int := 60000000

/-- Microseconds in one second. -/
def usecPerSecond : Int := 1000000

/-- A local wall-clock time of day, as stored in the seven
`cutoff_*_local` columns of `Pharmacy` (the source reads only the
`hour`, `minute` and `second` fields of the stored `time` value and
forces `microsecond = 0`). -/
structure LocalTime where
  hour : Int
  minute : Int
  second : Int
  deriving Repr, DecidableEq

/-- A local civil datetime, as produced by
`now_utc.astimezone(TZ_DE)` in the source: a local calendar day
(`date`, counted in days since 1970-01-01 in the local civil calendar)
plus a time of day. -/
structure LocalDateTime where
  date : Int
  hour : Int
  minute : Int
  second : Int
  microsecond : Int
  deriving Repr, DecidableEq

/-- Python `datetime.weekday()`: 0 = Monday .. 6 = Sunday, for a day
index counted from 1970-01-01 (which was a Thursday, weekday 3). -/
def pyWeekday (d : Int) : Int := (d + 3).emod 7

/-- The system civil timezone, abstractly: the two conversions the source
performs with `ZoneInfo("Europe/Berlin")`. `toLocal` models
`dt_utc.astimezone(TZ_DE)`; `fromLocal` models
`local_dt.astimezone(timezone.utc)` on an aware local datetime. -/
structure Tz where
  toLocal : Instant → LocalDateTime
  fromLocal : LocalDateTime → Instant

/-- A concrete member of `Tz` used to instantiate witnesses: the civil
timezone equal to UTC itself (offset zero, no daylight saving). -/
def utcTz : Tz where
  toLocal t :=
    { date := t.ediv usecPerDay
      hour := (t.emod usecPerDay).ediv usecPerHour
      minute := ((t.emod usecPerDay).emod usecPerHour).ediv usecPerMinute
      second := ((t.emod usecPerDay).emod usecPerMinute).ediv usecPerSecond
      microsecond := (t.emod usecPerDay).emod usecPerSecond }
  fromLocal dt :=
    dt.date * usecPerDay + dt.hour * usecPerHour + dt.minute * usecPerMinute
      + dt.second * usecPerSecond + dt.microsecond

/-- `UserRole` from src/app/db/models/user.py. -/
inductive UserRole where
  | admin
  | driver
  | history
  deriving Repr, DecidableEq

/-- The fields of `User` (src/app/db/models/user.py) read by the pickup
submission path: the orchestrator receives an already-authenticated
active user from the dependency layer. -/
structure User where
  id : Int
  role : UserRole
  require_pickup_location : Option Bool
  deriving Repr, DecidableEq

/-- `Pharmacy` (src/app/db/models/pharmacy.py): identity, activity flag
and the weekly local cutoff schedule. -/
structure Pharmacy where
  id : Int
  public_id : String
  name : String
  is_active : Bool
  cutoff_mon_local : Option LocalTime
  cutoff_tue_local : Option LocalTime
  cutoff_wed_local : Option LocalTime
  cutoff_thu_local : Option LocalTime
  cutoff_fri_local : Option LocalTime
  cutoff_sat_local : Option LocalTime
  cutoff_sun_local : Option LocalTime
  deriving Repr, DecidableEq

/-- `AppSettings` (src/app/db/models/settings.py): the single global
configuration row. -/
structure AppSettings where
  allowed_pickups_per_day : Int
  require_pickup_location_global : Bool
  min_required_photos : Int
  photo_source_mode : String
  deriving Repr, DecidableEq

/-- `UserPharmacyLink` (src/app/db/models/links.py). -/
structure UserPharmacyLink where
  user_id : Int
  pharmacy_id : Int
  deriving Repr, DecidableEq

/-- `Pickup` (src/app/db/models/pickup.py). `timing_status` is nullable
in the schema (the orchestrator always sets it). -/
structure Pickup where
  id : Int
  user_id : Int
  pharmacy_id : Int
  latitude : Option Rat
  longitude : Option Rat
  comment : Option String
  status : String
  cutoff_at_utc : Option Instant
  timing_status : Option String
  created_at : Instant
  deriving Repr, DecidableEq

/-- `PickupPhoto` (src/app/db/models/pickup_photo.py): the fields written
by the orchestrator. -/
structure PickupPhoto where
  pickup_id : Int
  idx : Int
  image_bytes : List Nat
  image_content_type : String
  image_filename : String
  deriving Repr, DecidableEq

/-- An uploaded file as the route receives it: a filename (possibly
empty, browsers send empty file objects for unused slots) and the raw
byte payload. -/
structure UploadFile where
  filename : String
  content : List Nat
  deriving Repr, DecidableEq

/-- The rows of the database visible to the submission path. -/
structure Database where
  pharmacies : List Pharmacy
  links : List UserPharmacyLink
  pickups : List Pickup
  photos : List PickupPhoto
  deriving Repr, DecidableEq

/-- The structured outcome of `create_pickup`; error constructors carry
the same data the rendered error message carries. -/
inductive PickupResult where
  | not_found
  | forbidden
  | photos_required (min_photos : Int)
  | location_required
  | quota_exceeded (limit : Int)
  | no_photos_saved
  | success (pickup : Pickup) (saved_count : Nat)
  deriving Repr, DecidableEq

/-- `_ensure_user_can_access_pharmacy` (pickups.py lines 43-79), as the
boolean "no 403 was raised": admins always pass; every other role needs a
`UserPharmacyLink` row for `(user.id, pharmacy.id)`. -/
def ensure_user_can_access_pharmacy (db : Database) (user : User)
    (pharmacy : Pharmacy) : Bool :=
  if user.role = UserRole.admin then
    true
  else
    (db.links.find? fun l =>
      l.user_id == user.id && l.pharmacy_id == pharmacy.id).isSome

/-- `_get_utc_today_bounds` (pickups.py lines 82-91): midnight and
`23:59:59.999999` of the UTC calendar day of the given instant (the
source reads the clock inside this helper; we pass the instant in). -/
def get_utc_today_bounds (now_utc : Instant) : Instant × Instant :=
  let day := now_utc.ediv usecPerDay
  (day * usecPerDay, day * usecPerDay + (usecPerDay - 1))

/-- `_parse_float_or_none` (pickups.py lines 94-101); `pf` models Python
`float(s)` with its `ValueError` branch mapped to `none`. -/
def parse_float_or_none (pf : String → Option Rat) (val : Option String) :
    Option Rat :=
  match val with
  | none => none
  | some s => if s = "" then none else pf s

/-- `_resolve_gps_requirement` (pickups.py lines 104-114). -/
def resolve_gps_requirement (user : User) (settings : AppSettings) : Bool :=
  match user.require_pickup_location with
  | some b => b
  | none => settings.require_pickup_location_global

/-- The `cutoff_map` dictionary built in `_get_cutoff_for_pickup`
(pickups.py lines 137-146); `dict.get` yields `None` off 0..6. -/
def cutoff_map (pharmacy : Pharmacy) (weekday : Int) : Option LocalTime :=
  if weekday = 0 then pharmacy.cutoff_mon_local
  else if weekday = 1 then pharmacy.cutoff_tue_local
  else if weekday = 2 then pharmacy.cutoff_wed_local
  else if weekday = 3 then pharmacy.cutoff_thu_local
  else if weekday = 4 then pharmacy.cutoff_fri_local
  else if weekday = 5 then pharmacy.cutoff_sat_local
  else if weekday = 6 then pharmacy.cutoff_sun_local
  else none

/-- `_get_cutoff_for_pickup` (pickups.py lines 117-162). -/
def get_cutoff_for_pickup (tz : Tz) (pharmacy : Pharmacy)
    (now_utc : Instant) : Option Instant :=
  let now_local := tz.toLocal now_utc
  let weekday := pyWeekday now_local.date
  match cutoff_map pharmacy weekday with
  | none => none
  | some cutoff_local_time =>
      let cutoff_local_dt : LocalDateTime :=
        { now_local with
            hour := cutoff_local_time.hour
            minute := cutoff_local_time.minute
            second := cutoff_local_time.second
            microsecond := 0 }
      some (tz.fromLocal cutoff_local_dt)

/-- `_compute_timing_status` (pickups.py lines 165-182). -/
def compute_timing_status (now_utc : Instant)
    (cutoff_at_utc : Option Instant) : String :=
  match cutoff_at_utc with
  | none => "no_cutoff"
  | some c => if c < now_utc then "late" else "on_time"

/-- One conditional `provided.append((i, image_i))` step of `create_pickup`
(pickups.py lines 272-280). -/
def opt_slot (i : Int) : Option UploadFile → List (Int × UploadFile)
  | none => []
  | some uf => [(i, uf)]

/-- The `provided` list after the filename filter (pickups.py lines
272-283): the four slots in order, keeping a slot exactly when its
filename is truthy (non-empty). -/
def provided_slots (image1 image2 image3 image4 : Option UploadFile) :
    List (Int × UploadFile) :=
  (opt_slot 1 image1 ++ opt_slot 2 image2 ++ opt_slot 3 image3
    ++ opt_slot 4 image4).filter fun x => !(x.2.filename == "")

/-- `min_photos = max(0, settings.min_required_photos or 0)` (pickups.py
line 286); Python `x or 0` maps a zero (falsy) value to 0. -/
def min_photos_required (settings : AppSettings) : Int :=
  max 0 (if settings.min_required_photos = 0 then 0
         else settings.min_required_photos)

/-- `limit = max(1, settings.allowed_pickups_per_day or 1)` (pickups.py
line 323); Python `x or 1` maps a zero (falsy) value to 1. -/
def daily_limit (settings : AppSettings) : Int :=
  max 1 (if settings.allowed_pickups_per_day = 0 then 1
         else settings.allowed_pickups_per_day)

/-- `comment_clean = comment.strip() if comment else None` (pickups.py
line 304): a falsy (absent or empty) comment becomes `None`, anything
else is stripped (a whitespace-only comment becomes the empty string,
not `None`). -/
def clean_comment : Option String → Option String
  | none => none
  | some c => if c = "" then none else some c.trim

/-- The daily-quota count (pickups.py lines 324-334): committed pickups
of the same `(driver, pharmacy)` pair whose `created_at` lies in the UTC
calendar day of the submission instant. -/
def count_today (db : Database) (user : User) (pharmacy : Pharmacy)
    (now_utc : Instant) : Nat :=
  let bounds := get_utc_today_bounds now_utc
  (db.pickups.filter fun p =>
    p.user_id == user.id && p.pharmacy_id == pharmacy.id
      && decide (bounds.1 ≤ p.created_at)
      && decide (p.created_at ≤ bounds.2)).length

/-- The `Pickup(...)` row built at pickups.py lines 365-375. The `id`
models the autoincrement key assigned by `session.flush()`. -/
def new_pickup (tz : Tz) (pf : String → Option Rat) (db : Database)
    (user : User) (pharmacy : Pharmacy) (lat lon comment : Option String)
    (now_utc : Instant) : Pickup :=
  { id := (db.pickups.length : Int) + 1
    user_id := user.id
    pharmacy_id := pharmacy.id
    latitude := parse_float_or_none pf lat
    longitude := parse_float_or_none pf lon
    comment := clean_comment comment
    status := "done"
    cutoff_at_utc := get_cutoff_for_pickup tz pharmacy now_utc
    timing_status :=
      some (compute_timing_status now_utc
        (get_cutoff_for_pickup tz pharmacy now_utc))
    created_at := now_utc }

/-- The photo-saving loop (pickups.py lines 379-406): zero-byte files
are skipped, `compress_image` failure skips the file, surviving files
become `PickupPhoto` rows tagged with their original slot index.
`compress` models `compress_image` (Pillow), with its exception branch
mapped to `none`. -/
def save_photos (compress : UploadFile → Option (List Nat × String))
    (pickup_id : Int) : List (Int × UploadFile) → List PickupPhoto
  | [] => []
  | (idx, uf) :: rest =>
      if uf.content.length = 0 then save_photos compress pickup_id rest
      else
        match compress uf with
        | none => save_photos compress pickup_id rest
        | some (image_bytes, content_type) =>
            { pickup_id := pickup_id
              idx := idx
              image_bytes := image_bytes
              image_content_type := content_type
              image_filename := uf.filename } :: save_photos compress pickup_id rest

/-- The body of `create_pickup` after the pharmacy has been resolved and
the access gate has passed (pickups.py lines 271-444): photo-minimum
check, GPS check, daily-quota check, timing snapshot, persistence, and
the all-photos-failed rollback. The source reads the clock twice (inside
`_get_utc_today_bounds` and at line 358); both reads are modelled by the
single per-request instant `now_utc`. -/
def create_pickup_checked (tz : Tz) (pf : String → Option Rat)
    (compress : UploadFile → Option (List Nat × String))
    (db : Database) (user : User) (settings : AppSettings)
    (pharmacy : Pharmacy) (image1 image2 image3 image4 : Option UploadFile)
    (lat lon comment : Option String) (now_utc : Instant) :
    PickupResult × Database :=
  let provided := provided_slots image1 image2 image3 image4
  let min_photos := min_photos_required settings
  if (provided.length : Int) < min_photos then
    (PickupResult.photos_required min_photos, db)
  else
    let latitude := parse_float_or_none pf lat
    let longitude := parse_float_or_none pf lon
    if resolve_gps_requirement user settings = true
        ∧ (latitude = none ∨ longitude = none) then
      (PickupResult.location_required, db)
    else
      let limit := daily_limit settings
      if (count_today db user pharmacy now_utc : Int) ≥ limit then
        (PickupResult.quota_exceeded limit, db)
      else
        let pickup := new_pickup tz pf db user pharmacy lat lon comment now_utc
        let photos := save_photos compress pickup.id provided
        if photos.length = 0 ∧ 0 < min_photos then
          (PickupResult.no_photos_saved, db)
        else
          (PickupResult.success pickup photos.length,
            { db with
                pickups := db.pickups ++ [pickup]
                photos := db.photos ++ photos })

/-- `create_pickup` (pickups.py lines 233-444): resolve the pharmacy by
public id, run the access gate, then the checked submission body. On
every failure the session is not committed (or is explicitly rolled
back), so the returned database equals the input database. -/
def create_pickup (tz : Tz) (pf : String → Option Rat)
    (compress : UploadFile → Option (List Nat × String))
    (db : Database) (user : User) (settings : AppSettings)
    (pharmacy_pid : String)
    (image1 image2 image3 image4 : Option UploadFile)
    (lat lon comment : Option String) (now_utc : Instant) :
    PickupResult × Database :=
  match db.pharmacies.find? (fun p => p.public_id == pharmacy_pid) with
  | none => (PickupResult.not_found, db)
  | some pharmacy =>
      if ensure_user_can_access_pharmacy db user pharmacy = true then
        create_pickup_checked tz pf compress db user settings pharmacy
          image1 image2 image3 image4 lat lon comment now_utc
      else
        (PickupResult.forbidden, db)

/-- `db` with every pharmacy's `is_active` flag rewritten by `f` (used to
state that the submission path never reads the flag). -/
def set_pharmacies_active (db : Database) (f : Pharmacy → Bool) : Database :=
  { db with pharmacies := db.pharmacies.map fun p => { p with is_active := f p } }

/-- A model of `float(s)` that always raises: coordinates parse to `None`. -/
def demo_pf : String → Option Rat := fun _ => none

/-- A model of `compress_image` that succeeds on every file, returning the
raw bytes as a JPEG. -/
def demo_compress : UploadFile → Option (List Nat × String) :=
  fun uf => some (uf.content, "image/jpeg")

/-- A pharmacy with no cutoff configured on any weekday. -/
def demo_pharmacy : Pharmacy :=
  { id := 1, public_id := "ph1", name := "Pharmacy One", is_active := true
    cutoff_mon_local := none, cutoff_tue_local := none, cutoff_wed_local := none
    cutoff_thu_local := none, cutoff_fri_local := none, cutoff_sat_local := none
    cutoff_sun_local := none }

/-- An admin user exempt from the GPS requirement. -/
def demo_admin : User :=
  { id := 7, role := UserRole.admin, require_pickup_location := some false }

/-- A driver exempt from the GPS requirement. -/
def demo_driver : User :=
  { id := 8, role := UserRole.driver, require_pickup_location := some false }

/-- A history-role (read-only reporting) user. -/
def demo_history_user : User :=
  { id := 9, role := UserRole.history, require_pickup_location := some false }

/-- Settings requiring no photos. -/
def demo_settings : AppSettings :=
  { allowed_pickups_per_day := 5, require_pickup_location_global := true
    min_required_photos := 0, photo_source_mode := "camera_or_upload" }

/-- Settings requiring two photos and no GPS. -/
def demo_settings_two_photos : AppSettings :=
  { allowed_pickups_per_day := 5, require_pickup_location_global := false
    min_required_photos := 2, photo_source_mode := "camera_or_upload" }

/-- Settings allowing a single pickup per day and requiring nothing else. -/
def demo_settings_quota_one : AppSettings :=
  { allowed_pickups_per_day := 1, require_pickup_location_global := false
    min_required_photos := 0, photo_source_mode := "camera_or_upload" }

/-- A database holding the demo pharmacy, no links, no pickups. -/
def demo_db : Database :=
  { pharmacies := [demo_pharmacy], links := [], pickups := [], photos := [] }

/-- A database where the history user is linked to the demo pharmacy. -/
def demo_db_hist : Database :=
  { pharmacies := [demo_pharmacy]
    links := [{ user_id := 9, pharmacy_id := 1 }], pickups := [], photos := [] }

/-- A pickup committed earlier on the same UTC day (microsecond 100). -/
def demo_prior_pickup : Pickup :=
  { id := 1, user_id := 8, pharmacy_id := 1, latitude := none, longitude := none
    comment := none, status := "done", cutoff_at_utc := none
    timing_status := some "no_cutoff", created_at := 100 }

/-- A database where the demo driver is linked to the demo pharmacy and
already has one pickup committed today. -/
def demo_db_quota : Database :=
  { pharmacies := [demo_pharmacy]
    links := [{ user_id := 8, pharmacy_id := 1 }]
    pickups := [demo_prior_pickup], photos := [] }

/-- An uploaded file with a filename and a non-empty payload. -/
def demo_file : UploadFile := { filename := "a.jpg", content := [1, 2, 3] }

/-- An uploaded file with a filename but a zero-byte payload. -/
def demo_empty_file : UploadFile := { filename := "b.jpg", content := [] }

/-- Sending `find?` through the `is_active` rewrite: the predicate only
reads `public_id`, which the rewrite preserves. -/
theorem find?_map_active (l : List Pharmacy) (f : Pharmacy → Bool) (pid : String) :
    ((l.map fun p => { p with is_active := f p }).find? fun p => p.public_id == pid) =
      ((l.find? fun p => p.public_id == pid).map fun p => { p with is_active := f p }) := by
  induction l with
  | nil => rfl
  | cons a t ih =>
      simp only [List.map_cons, List.find?_cons]
      cases hpb : a.public_id == pid with
      | true => simp [hpb]
      | false => simp [hpb, ih]

/-- Unfolding `create_pickup` once the pharmacy is found and the access
gate passes. -/
theorem create_pickup_of_found (tz : Tz) (pf : String → Option Rat)
    (compress : UploadFile → Option (List Nat × String))
    (db : Database) (user : User) (settings : AppSettings) (pid : String)
    (i1 i2 i3 i4 : Option UploadFile) (lat lon comment : Option String)
    (now : Instant) (pharmacy : Pharmacy)
    (hfind : db.pharmacies.find? (fun p => p.public_id == pid) = some pharmacy)
    (hacc : ensure_user_can_access_pharmacy db user pharmacy = true) :
    create_pickup tz pf compress db user settings pid i1 i2 i3 i4 lat lon comment now =
      create_pickup_checked tz pf compress db user settings pharmacy
        i1 i2 i3 i4 lat lon comment now := by
  simp [create_pickup, hfind, hacc]

/-- Inversion: a successful `create_pickup` run found some pharmacy and
returned exactly the `new_pickup` record built from it. -/
theorem create_pickup_success_cases (tz : Tz) (pf : String → Option Rat)
    (compress : UploadFile → Option (List Nat × String))
    (db : Database) (user : User) (settings : AppSettings) (pid : String)
    (i1 i2 i3 i4 : Option UploadFile) (lat lon comment : Option String)
    (now : Instant) (p : Pickup) (sc : Nat)
    (h : (create_pickup tz pf compress db user settings pid
        i1 i2 i3 i4 lat lon comment now).1 = PickupResult.success p sc) :
    ∃ pharmacy,
      db.pharmacies.find? (fun q => q.public_id == pid) = some pharmacy ∧
      p = new_pickup tz pf db user pharmacy lat lon comment now := by
  unfold create_pickup at h
  split at h
  · simp at h
  · rename_i pharmacy heq
    refine ⟨pharmacy, heq, ?_⟩
    split at h
    · simp only [create_pickup_checked] at h
      split at h
      · simp at h
      · split at h
        · simp at h
        · split at h
          · simp at h
          · split at h
            · simp at h
            · simp at h
              exact h.1.symm
    · simp at h

/-- C1: the timing classifier returns `no_cutoff` when the cutoff is
absent, `on_time` exactly when the pickup instant is less than or equal
to the cutoff instant (the boundary instant counts as on time), and
`late` exactly when the pickup instant is strictly after the cutoff. -/
theorem timing_classifier_correct (now : Instant) (c : Option Instant) :
    (c = none → compute_timing_status now c = "no_cutoff") ∧
    ∀ t, c = some t →
      ((compute_timing_status now c = "on_time" ↔ now ≤ t) ∧
       (compute_timing_status now c = "late" ↔ t < now)) := by
  constructor
  · intro h; subst h; rfl
  · intro t h; subst h
    simp only [compute_timing_status]
    by_cases hlt : t < now
    · rw [if_pos hlt]
      exact ⟨⟨fun he => absurd he (by decide), fun hle => absurd hlt (not_lt.mpr hle)⟩,
        ⟨fun _ => hlt, fun _ => rfl⟩⟩
    · rw [if_neg hlt]
      exact ⟨⟨fun _ => not_lt.mp hlt, fun _ => rfl⟩,
        ⟨fun he => absurd he (by decide), fun h2 => absurd h2 hlt⟩⟩

/-- Witness for C1: the boundary instant (pickup instant equal to the
cutoff instant) classifies as on time. -/
theorem timing_classifier_correct_witness :
    compute_timing_status 5 (some 5) = "on_time" :=
  ((timing_classifier_correct 5 (some 5)).2 5 rfl).1.mpr (by decide)

/-- C2: re-running the classifier on a stored pickup's frozen fields
(`created_at`, `cutoff_at_utc`) reproduces its stored `timing_status`;
the classification is a pure function of the frozen snapshot, so later
schedule changes never alter it. -/
theorem stored_timing_status_reproducible (tz : Tz) (pf : String → Option Rat)
    (compress : UploadFile → Option (List Nat × String))
    (db : Database) (user : User) (settings : AppSettings) (pid : String)
    (i1 i2 i3 i4 : Option UploadFile) (lat lon comment : Option String)
    (now : Instant) (p : Pickup) (sc : Nat)
    (h : (create_pickup tz pf compress db user settings pid
        i1 i2 i3 i4 lat lon comment now).1 = PickupResult.success p sc) :
    p.timing_status = some (compute_timing_status p.created_at p.cutoff_at_utc) := by
  obtain ⟨pharmacy, -, hp⟩ :=
    create_pickup_success_cases tz pf compress db user settings pid
      i1 i2 i3 i4 lat lon comment now p sc h
  subst hp
  rfl

/-- Witness for C2: a concrete successful submission whose stored pickup
reclassifies to its stored timing status. -/
theorem stored_timing_status_reproducible_witness :
    (new_pickup utcTz demo_pf demo_db demo_admin demo_pharmacy none none none 0).timing_status =
      some (compute_timing_status
        (new_pickup utcTz demo_pf demo_db demo_admin demo_pharmacy none none none 0).created_at
        (new_pickup utcTz demo_pf demo_db demo_admin demo_pharmacy none none none 0).cutoff_at_utc) :=
  stored_timing_status_reproducible utcTz demo_pf demo_compress demo_db demo_admin
    demo_settings "ph1" (some demo_file) none none none none none none 0
    (new_pickup utcTz demo_pf demo_db demo_admin demo_pharmacy none none none 0) 1
    (by decide)

/-- C3: when the schedule entry for the submission instant's local
weekday is absent, the cutoff resolver returns no cutoff, the classifier
returns `no_cutoff`, and any pickup successfully created for that
pharmacy at that instant stores timing status `no_cutoff`. -/
theorem schedule_gap_gives_no_cutoff (tz : Tz) (pharmacy : Pharmacy) (now : Instant)
    (h : cutoff_map pharmacy (pyWeekday (tz.toLocal now).date) = none) :
    get_cutoff_for_pickup tz pharmacy now = none ∧
    compute_timing_status now (get_cutoff_for_pickup tz pharmacy now) = "no_cutoff" ∧
    ∀ (pf : String → Option Rat) (compress : UploadFile → Option (List Nat × String))
      (db : Database) (user : User) (settings : AppSettings) (pid : String)
      (i1 i2 i3 i4 : Option UploadFile) (lat lon comment : Option String)
      (p : Pickup) (sc : Nat),
      db.pharmacies.find? (fun q => q.public_id == pid) = some pharmacy →
      (create_pickup tz pf compress db user settings pid
        i1 i2 i3 i4 lat lon comment now).1 = PickupResult.success p sc →
      p.timing_status = some "no_cutoff" := by
  have hc : get_cutoff_for_pickup tz pharmacy now = none := by
    simp only [get_cutoff_for_pickup]
    rw [h]
  refine ⟨hc, by rw [hc]; rfl, ?_⟩
  intro pf compress db user settings pid i1 i2 i3 i4 lat lon comment p sc hfind hsucc
  obtain ⟨pharmacy', hfind', hp⟩ :=
    create_pickup_success_cases tz pf compress db user settings pid
      i1 i2 i3 i4 lat lon comment now p sc hsucc
  rw [hfind] at hfind'
  obtain rfl : pharmacy = pharmacy' := Option.some.inj hfind'
  subst hp
  simp only [new_pickup, hc]
  rfl

/-- Witness for C3: the demo pharmacy has no schedule entry on the local
weekday of instant 0, and its resolved cutoff is absent. -/
theorem schedule_gap_gives_no_cutoff_witness :
    get_cutoff_for_pickup utcTz demo_pharmacy 0 = none :=
  (schedule_gap_gives_no_cutoff utcTz demo_pharmacy 0 (by decide)).1

/-- C4: with the pharmacy resolved, the access gate passed and the photo
and GPS checks passed, the submission is rejected with `QuotaExceeded`
(and nothing is written) exactly while the count of same-day committed
pickups for the (driver, pharmacy) pair has reached the clamped limit,
and succeeds (appending exactly one pickup) while the count is strictly
below it. -/
theorem daily_quota_boundary (tz : Tz) (pf : String → Option Rat)
    (compress : UploadFile → Option (List Nat × String))
    (db : Database) (user : User) (settings : AppSettings) (pid : String)
    (i1 i2 i3 i4 : Option UploadFile) (lat lon comment : Option String)
    (now : Instant) (pharmacy : Pharmacy)
    (hfind : db.pharmacies.find? (fun p => p.public_id == pid) = some pharmacy)
    (hacc : ensure_user_can_access_pharmacy db user pharmacy = true)
    (hphotos : ¬ ((provided_slots i1 i2 i3 i4).length : Int) < min_photos_required settings)
    (hgps : ¬ (resolve_gps_requirement user settings = true ∧
      (parse_float_or_none pf lat = none ∨ parse_float_or_none pf lon = none))) :
    ((count_today db user pharmacy now : Int) ≥ daily_limit settings →
      create_pickup tz pf compress db user settings pid i1 i2 i3 i4 lat lon comment now =
        (PickupResult.quota_exceeded (daily_limit settings), db)) ∧
    ((count_today db user pharmacy now : Int) < daily_limit settings →
      ¬ ((save_photos compress (new_pickup tz pf db user pharmacy lat lon comment now).id
            (provided_slots i1 i2 i3 i4)).length = 0 ∧ 0 < min_photos_required settings) →
      create_pickup tz pf compress db user settings pid i1 i2 i3 i4 lat lon comment now =
        (PickupResult.success (new_pickup tz pf db user pharmacy lat lon comment now)
            (save_photos compress (new_pickup tz pf db user pharmacy lat lon comment now).id
              (provided_slots i1 i2 i3 i4)).length,
          { db with
              pickups := db.pickups ++ [new_pickup tz pf db user pharmacy lat lon comment now]
              photos := db.photos ++ save_photos compress
                (new_pickup tz pf db user pharmacy lat lon comment now).id
                (provided_slots i1 i2 i3 i4) })) := by
  rw [create_pickup_of_found tz pf compress db user settings pid
    i1 i2 i3 i4 lat lon comment now pharmacy hfind hacc]
  constructor
  · intro hq
    simp only [create_pickup_checked]
    rw [if_neg hphotos, if_neg hgps, if_pos hq]
  · intro hq hsave
    simp only [create_pickup_checked]
    rw [if_neg hphotos, if_neg hgps, if_neg (not_le.mpr hq), if_neg hsave]

/-- Witness for C4: the driver already has one committed pickup today and
the limit is one, so a second same-day submission is rejected with the
quota error and the database is unchanged. -/
theorem daily_quota_boundary_witness :
    create_pickup utcTz demo_pf demo_compress demo_db_quota demo_driver
        demo_settings_quota_one "ph1" none none none none none none none 200 =
      (PickupResult.quota_exceeded (daily_limit demo_settings_quota_one), demo_db_quota) :=
  (daily_quota_boundary utcTz demo_pf demo_compress demo_db_quota demo_driver
    demo_settings_quota_one "ph1" none none none none none none none 200 demo_pharmacy
    (by decide) (by decide) (by decide) (by decide)).1 (by decide)

/-- C5: the GPS requirement resolver returns a set per-user override
verbatim and falls back to the global flag only when the override is
unset; with the earlier gates passed, a submission is rejected for
missing coordinates exactly when the resolved requirement is true and at
least one coordinate fails to parse. -/
theorem gps_requirement_resolution (user : User) (settings : AppSettings) :
    (∀ b, user.require_pickup_location = some b →
      resolve_gps_requirement user settings = b) ∧
    (user.require_pickup_location = none →
      resolve_gps_requirement user settings = settings.require_pickup_location_global) ∧
    ∀ (tz : Tz) (pf : String → Option Rat)
      (compress : UploadFile → Option (List Nat × String))
      (db : Database) (pid : String) (i1 i2 i3 i4 : Option UploadFile)
      (lat lon comment : Option String) (now : Instant) (pharmacy : Pharmacy),
      db.pharmacies.find? (fun q => q.public_id == pid) = some pharmacy →
      ensure_user_can_access_pharmacy db user pharmacy = true →
      ¬ ((provided_slots i1 i2 i3 i4).length : Int) < min_photos_required settings →
      ((create_pickup tz pf compress db user settings pid
          i1 i2 i3 i4 lat lon comment now).1 = PickupResult.location_required ↔
        (resolve_gps_requirement user settings = true ∧
          (parse_float_or_none pf lat = none ∨ parse_float_or_none pf lon = none))) := by
  refine ⟨?_, ?_, ?_⟩
  · intro b hb; simp [resolve_gps_requirement, hb]
  · intro hb; simp [resolve_gps_requirement, hb]
  · intro tz pf compress db pid i1 i2 i3 i4 lat lon comment now pharmacy hfind hacc hphotos
    rw [create_pickup_of_found tz pf compress db user settings pid
      i1 i2 i3 i4 lat lon comment now pharmacy hfind hacc]
    simp only [create_pickup_checked]
    rw [if_neg hphotos]
    by_cases hg : resolve_gps_requirement user settings = true ∧
        (parse_float_or_none pf lat = none ∨ parse_float_or_none pf lon = none)
    · rw [if_pos hg]
      exact ⟨fun _ => hg, fun _ => rfl⟩
    · rw [if_neg hg]
      constructor
      · intro hcontra
        exfalso
        split at hcontra
        · simp at hcontra
        · split at hcontra
          · simp at hcontra
          · simp at hcontra
      · intro hcond; exact absurd hcond hg

/-- Witness for C5: a driver whose override is `false` resolves to no GPS
requirement even though the global flag is true. -/
theorem gps_requirement_resolution_witness :
    resolve_gps_requirement demo_driver demo_settings = false :=
  (gps_requirement_resolution demo_driver demo_settings).1 false rfl

/-- C6 counterexample: with `min_required_photos = 2`, a submission whose
two supplied slots both carry filenames but only one carries non-empty
content is accepted (one saved photo), not rejected — the pre-check
counts slots with a non-empty filename, not slots with non-empty
content. -/
theorem photo_content_filter_cex :
    ((create_pickup utcTz demo_pf demo_compress demo_db demo_admin
        demo_settings_two_photos "ph1" (some demo_file) (some demo_empty_file)
        none none none none none 0).1 =
      PickupResult.success
        (new_pickup utcTz demo_pf demo_db demo_admin demo_pharmacy none none none 0) 1) ∧
    demo_settings_two_photos.min_required_photos = 2 ∧
    (([((1 : Int), demo_file), (2, demo_empty_file)]).filter
      (fun x => !x.2.content.isEmpty)).length = 1 := by
  refine ⟨by decide, rfl, by decide⟩

/-- C6 amended: with the pharmacy resolved and the gate passed, the
orchestrator rejects with the photo `ValidationError` whenever the number
of slots carrying a non-empty filename is below the clamped minimum
(zero-byte payloads count at this pre-check); zero-byte and unprocessable
payloads are skipped at save time, and if no photo survives while the
minimum is positive, the transaction rolls back with a `ValidationError`
and nothing is written. -/
theorem photo_minimum_counts_filename_slots (tz : Tz) (pf : String → Option Rat)
    (compress : UploadFile → Option (List Nat × String))
    (db : Database) (user : User) (settings : AppSettings) (pid : String)
    (i1 i2 i3 i4 : Option UploadFile) (lat lon comment : Option String)
    (now : Instant) (pharmacy : Pharmacy)
    (hfind : db.pharmacies.find? (fun p => p.public_id == pid) = some pharmacy)
    (hacc : ensure_user_can_access_pharmacy db user pharmacy = true) :
    (((provided_slots i1 i2 i3 i4).length : Int) < min_photos_required settings →
      create_pickup tz pf compress db user settings pid i1 i2 i3 i4 lat lon comment now =
        (PickupResult.photos_required (min_photos_required settings), db)) ∧
    (¬ ((provided_slots i1 i2 i3 i4).length : Int) < min_photos_required settings →
      ¬ (resolve_gps_requirement user settings = true ∧
        (parse_float_or_none pf lat = none ∨ parse_float_or_none pf lon = none)) →
      ¬ (count_today db user pharmacy now : Int) ≥ daily_limit settings →
      (save_photos compress (new_pickup tz pf db user pharmacy lat lon comment now).id
        (provided_slots i1 i2 i3 i4)).length = 0 →
      0 < min_photos_required settings →
      create_pickup tz pf compress db user settings pid i1 i2 i3 i4 lat lon comment now =
        (PickupResult.no_photos_saved, db)) := by
  rw [create_pickup_of_found tz pf compress db user settings pid
    i1 i2 i3 i4 lat lon comment now pharmacy hfind hacc]
  constructor
  · intro h1
    simp only [create_pickup_checked]
    rw [if_pos h1]
  · intro h1 h2 h3 h4 h5
    simp only [create_pickup_checked]
    rw [if_neg h1, if_neg h2, if_neg h3, if_pos ⟨h4, h5⟩]

/-- Witness for C6 amended: one filename-bearing slot against a minimum
of two photos is rejected with the photo error and no write happens. -/
theorem photo_minimum_counts_filename_slots_witness :
    create_pickup utcTz demo_pf demo_compress demo_db demo_admin
        demo_settings_two_photos "ph1" (some demo_file) none none none none none none 0 =
      (PickupResult.photos_required (min_photos_required demo_settings_two_photos), demo_db) :=
  (photo_minimum_counts_filename_slots utcTz demo_pf demo_compress demo_db demo_admin
    demo_settings_two_photos "ph1" (some demo_file) none none none none none none 0
    demo_pharmacy (by decide) (by decide)).1 (by decide)

/-- C7: the access gate fails exactly when the user is not an admin and
no assignment link between the user and the pharmacy exists; admins
always pass, and any linked user passes. -/
theorem access_gate_forbidden_iff (db : Database) (user : User) (pharmacy : Pharmacy) :
    (user.role = UserRole.admin →
      ensure_user_can_access_pharmacy db user pharmacy = true) ∧
    ((∃ l ∈ db.links, l.user_id = user.id ∧ l.pharmacy_id = pharmacy.id) →
      ensure_user_can_access_pharmacy db user pharmacy = true) ∧
    (ensure_user_can_access_pharmacy db user pharmacy = false ↔
      (user.role ≠ UserRole.admin ∧
        ∀ l ∈ db.links, ¬ (l.user_id = user.id ∧ l.pharmacy_id = pharmacy.id))) := by
  by_cases hrole : user.role = UserRole.admin
  · refine ⟨fun _ => by simp [ensure_user_can_access_pharmacy, hrole],
      fun _ => by simp [ensure_user_can_access_pharmacy, hrole], ?_⟩
    simp [ensure_user_can_access_pharmacy, hrole]
  · refine ⟨fun h => absurd h hrole, ?_, ?_⟩
    · rintro ⟨l, hl, h1, h2⟩
      simp only [ensure_user_can_access_pharmacy, if_neg hrole]
      have : db.links.find?
          (fun l => l.user_id == user.id && l.pharmacy_id == pharmacy.id) ≠ none := by
        intro hnone
        have := List.find?_eq_none.mp hnone l hl
        simp [h1, h2] at this
      cases hfind : db.links.find?
          (fun l => l.user_id == user.id && l.pharmacy_id == pharmacy.id) with
      | none => exact absurd hfind this
      | some x => rfl
    · simp only [ensure_user_can_access_pharmacy, if_neg hrole]
      constructor
      · intro hf
        refine ⟨hrole, ?_⟩
        intro l hl hlp
        have hnone : db.links.find?
            (fun l => l.user_id == user.id && l.pharmacy_id == pharmacy.id) = none := by
          cases hfind : db.links.find?
              (fun l => l.user_id == user.id && l.pharmacy_id == pharmacy.id) with
          | none => rfl
          | some x => rw [hfind] at hf; simp at hf
        have := List.find?_eq_none.mp hnone l hl
        simp [hlp.1, hlp.2] at this
      · rintro ⟨-, hall⟩
        cases hfind : db.links.find?
            (fun l => l.user_id == user.id && l.pharmacy_id == pharmacy.id) with
        | none => rfl
        | some x =>
            have hx := List.find?_some hfind
            have hmem := List.mem_of_find?_eq_some hfind
            simp only [Bool.and_eq_true, beq_iff_eq] at hx
            exact absurd ⟨hx.1, hx.2⟩ (hall x hmem)

/-- Witness for C7: an unlinked driver is rejected by the gate. -/
theorem access_gate_forbidden_iff_witness :
    ensure_user_can_access_pharmacy demo_db demo_driver demo_pharmacy = false :=
  (access_gate_forbidden_iff demo_db demo_driver demo_pharmacy).2.2.mpr
    ⟨by decide, by decide⟩

/-- C8 (divergence exhibit): a history-role user who holds an assignment
link to the pharmacy is not stopped by the pickup-creation operation —
the run succeeds and a pickup row is written, because the route's gate
passes any linked non-admin and no role check excludes the read-only
history role from the write path. -/
theorem history_role_write_not_blocked :
    demo_history_user.role = UserRole.history ∧
    (create_pickup utcTz demo_pf demo_compress demo_db_hist demo_history_user
        demo_settings "ph1" (some demo_file) none none none none none none 0).1 =
      PickupResult.success
        (new_pickup utcTz demo_pf demo_db_hist demo_history_user demo_pharmacy
          none none none 0) 1 ∧
    (create_pickup utcTz demo_pf demo_compress demo_db_hist demo_history_user
        demo_settings "ph1" (some demo_file) none none none none none none 0).2.pickups.length = 1 := by
  refine ⟨rfl, by decide, by decide⟩

/-- C9 counterexample: a concrete successful submission stores status
"done", not "completed". -/
theorem pickup_status_done_cex :
    (create_pickup utcTz demo_pf demo_compress demo_db demo_admin demo_settings
        "ph1" (some demo_file) none none none none none none 0).1 =
      PickupResult.success
        (new_pickup utcTz demo_pf demo_db demo_admin demo_pharmacy none none none 0) 1 ∧
    (new_pickup utcTz demo_pf demo_db demo_admin demo_pharmacy none none none 0).status = "done" ∧
    ("done" : String) ≠ "completed" := by
  refine ⟨by decide, rfl, by decide⟩

/-- C9 amended: every pickup record created by the submission
orchestrator has its status field set to "done" (the model has no
operation that updates a pickup after creation). -/
theorem created_pickup_status_done (tz : Tz) (pf : String → Option Rat)
    (compress : UploadFile → Option (List Nat × String))
    (db : Database) (user : User) (settings : AppSettings) (pid : String)
    (i1 i2 i3 i4 : Option UploadFile) (lat lon comment : Option String)
    (now : Instant) (p : Pickup) (sc : Nat)
    (h : (create_pickup tz pf compress db user settings pid
        i1 i2 i3 i4 lat lon comment now).1 = PickupResult.success p sc) :
    p.status = "done" := by
  obtain ⟨pharmacy, -, hp⟩ :=
    create_pickup_success_cases tz pf compress db user settings pid
      i1 i2 i3 i4 lat lon comment now p sc h
  subst hp
  rfl

/-- Witness for C9 amended: the concrete successful submission's stored
status is "done". -/
theorem created_pickup_status_done_witness :
    (new_pickup utcTz demo_pf demo_db demo_admin demo_pharmacy none none none 0).status = "done" :=
  created_pickup_status_done utcTz demo_pf demo_compress demo_db demo_admin
    demo_settings "ph1" (some demo_file) none none none none none none 0
    (new_pickup utcTz demo_pf demo_db demo_admin demo_pharmacy none none none 0) 1
    (by decide)

/-- Rewriting every pharmacy's `is_active` flag commutes with the checked
submission body: no step of it reads the flag. -/
theorem create_pickup_checked_set_active (tz : Tz) (pf : String → Option Rat)
    (compress : UploadFile → Option (List Nat × String))
    (db : Database) (user : User) (settings : AppSettings) (pharmacy : Pharmacy)
    (i1 i2 i3 i4 : Option UploadFile) (lat lon comment : Option String)
    (now : Instant) (f : Pharmacy → Bool) :
    create_pickup_checked tz pf compress (set_pharmacies_active db f) user settings
        { pharmacy with is_active := f pharmacy } i1 i2 i3 i4 lat lon comment now =
      ((create_pickup_checked tz pf compress db user settings pharmacy
          i1 i2 i3 i4 lat lon comment now).1,
        set_pharmacies_active
          (create_pickup_checked tz pf compress db user settings pharmacy
            i1 i2 i3 i4 lat lon comment now).2 f) := by
  have h1 : count_today (set_pharmacies_active db f) user
      { pharmacy with is_active := f pharmacy } now = count_today db user pharmacy now := rfl
  have h2 : new_pickup tz pf (set_pharmacies_active db f) user
      { pharmacy with is_active := f pharmacy } lat lon comment now =
      new_pickup tz pf db user pharmacy lat lon comment now := rfl
  simp only [create_pickup_checked]
  rw [h1, h2]
  by_cases c1 : ((provided_slots i1 i2 i3 i4).length : Int) < min_photos_required settings
  · rw [if_pos c1, if_pos c1]
  · rw [if_neg c1, if_neg c1]
    by_cases c2 : resolve_gps_requirement user settings = true ∧
        (parse_float_or_none pf lat = none ∨ parse_float_or_none pf lon = none)
    · rw [if_pos c2, if_pos c2]
    · rw [if_neg c2, if_neg c2]
      by_cases c3 : (count_today db user pharmacy now : Int) ≥ daily_limit settings
      · rw [if_pos c3, if_pos c3]
      · rw [if_neg c3, if_neg c3]
        by_cases c4 : (save_photos compress
            (new_pickup tz pf db user pharmacy lat lon comment now).id
            (provided_slots i1 i2 i3 i4)).length = 0 ∧ 0 < min_photos_required settings
        · rw [if_pos c4, if_pos c4]
        · rw [if_neg c4, if_neg c4]; rfl

/-- C10: the submission outcome does not depend on `pharmacy.is_active`:
running `create_pickup` on a database whose pharmacies' `is_active` flags
are rewritten arbitrarily yields the same result, and the final database
is the flag-rewrite of the original final database — no step of the
submission path reads the flag. -/
theorem pharmacy_is_active_never_read (tz : Tz) (pf : String → Option Rat)
    (compress : UploadFile → Option (List Nat × String))
    (db : Database) (user : User) (settings : AppSettings) (pid : String)
    (i1 i2 i3 i4 : Option UploadFile) (lat lon comment : Option String)
    (now : Instant) (f : Pharmacy → Bool) :
    create_pickup tz pf compress (set_pharmacies_active db f) user settings pid
        i1 i2 i3 i4 lat lon comment now =
      ((create_pickup tz pf compress db user settings pid
          i1 i2 i3 i4 lat lon comment now).1,
        set_pharmacies_active
          (create_pickup tz pf compress db user settings pid
            i1 i2 i3 i4 lat lon comment now).2 f) := by
  unfold create_pickup
  have hf : (set_pharmacies_active db f).pharmacies.find? (fun p => p.public_id == pid) =
      (db.pharmacies.find? (fun p => p.public_id == pid)).map
        (fun p => { p with is_active := f p }) :=
    find?_map_active db.pharmacies f pid
  rw [hf]
  cases hfind : db.pharmacies.find? (fun p => p.public_id == pid) with
  | none => rfl
  | some pharmacy =>
      simp only [Option.map_some']
      have hgate : ensure_user_can_access_pharmacy (set_pharmacies_active db f) user
          { pharmacy with is_active := f pharmacy } =
          ensure_user_can_access_pharmacy db user pharmacy := rfl
      rw [hgate]
      by_cases hacc : ensure_user_can_access_pharmacy db user pharmacy = true
      · rw [if_pos hacc, if_pos hacc]
        exact create_pickup_checked_set_active tz pf compress db user settings pharmacy
          i1 i2 i3 i4 lat lon comment now f
      · rw [if_neg hacc, if_neg hacc]

end PickupLivery
